import Mathlib

/-!
Verification development for the RPC-over-RabbitMQ layer of the
sales_scoring backend (`backend/app/rabbitmq.py` and
`backend/app/services_gateway.py`).

The Python source is shallowly embedded:

* JSON-like dictionaries/values (the loosely typed envelope payloads)
  become the inductive type `Val`; `dict.get` becomes `vget`.
* The correlation-id → pending-future map `RabbitMQManager._futures`
  becomes an association list `SlotMap`; the atomic blocks of code that
  mutate it (the insert in `rpc_call`, the pop in the timeout branch,
  the cancellation performed by `asyncio.wait_for`, and the body of
  `_on_response`) become the events of an executable transition system
  (`step`).  Scheduling is cooperative and single threaded, so each
  such block (which contains no `await` touching the map) is one atomic
  event, and an execution is an arbitrary event list.
* Fallible Python code is embedded with `Except String` (a raised
  exception carrying `str(exc)`); exact Python exception rendering that
  no property depends on is abbreviated (noted at each site).
-/

namespace Scoring

mutual
/-- JSON-like values: bodies of messages, payloads, envelopes.
`vnull` is Python `None`; an absent dictionary key is `Option.none` at
the lookup, distinct from a present `vnull`. -/
inductive Val where
  | vnull : Val
  | vbool : Bool → Val
  | vnum : Int → Val
  | vstr : String → Val
  | varr : ValList → Val
  | vobj : ValFields → Val
deriving DecidableEq, Repr

/-- A JSON array body. -/
inductive ValList where
  | nil : ValList
  | cons : Val → ValList → ValList
deriving DecidableEq, Repr

/-- The key/value pairs of a JSON object (dict), in insertion order. -/
inductive ValFields where
  | nil : ValFields
  | cons : String → Val → ValFields → ValFields
deriving DecidableEq, Repr
end

/-- Build a `ValFields` from a literal list of pairs. -/
def fieldsOf : List (String × Val) → ValFields
  | [] => .nil
  | (k, v) :: rest => .cons k v (fieldsOf rest)

/-- Build a `ValList` from a literal list. -/
def vlistOf : List Val → ValList
  | [] => .nil
  | v :: rest => .cons v (vlistOf rest)

/-- Dict literal. -/
def Val.obj (fs : List (String × Val)) : Val := .vobj (fieldsOf fs)

/-- Array literal. -/
def Val.arr (xs : List Val) : Val := .varr (vlistOf xs)

/-- First-match association lookup inside an object's fields, i.e.
`d.get(k)` / `k in d` on a Python dict (dicts built by this layer have
distinct keys, so first-match agrees with dict semantics). -/
def vfindField : ValFields → String → Option Val
  | .nil, _ => none
  | .cons k v rest, key => if k = key then some v else vfindField rest key

/-- `value.get(key)` when `value` is a dict; non-dicts have no keys. -/
def vget : Val → String → Option Val
  | .vobj fields, key => vfindField fields key
  | _, _ => none

/-- `value.get(key, default)`. -/
def vgetD (v : Val) (key : String) (default : Val) : Val :=
  match vget v key with
  | some w => w
  | none => default

/-- `value[key]` — raises `KeyError` when the key is absent.  The exact
Python rendering of the `KeyError` message is abbreviated. -/
def vindex (v : Val) (key : String) : Except String Val :=
  match vget v key with
  | some w => .ok w
  | none => .error ("KeyError: " ++ key)

/-- Python `f"{x}"` for `x = payload.get("action")` — only the string
and `None` renderings are ever relied upon; container renderings are
abbreviated. -/
def pyFStr : Option Val → String
  | none => "None"
  | some .vnull => "None"
  | some (.vbool b) => if b then "True" else "False"
  | some (.vnum n) => toString n
  | some (.vstr s) => s
  | some (.varr _) => "[…]"
  | some (.vobj _) => "\x7b…\x7d"

/-! ## The pending-call map (`RabbitMQManager._futures`)

A slot is the `asyncio.Future` stored under a correlation id.  While in
the map it is either still awaitable (`pending`) or already cancelled
by the `asyncio.wait_for` timeout but not yet popped by the
`except asyncio.TimeoutError` branch (`cancelled`; `future.done()` is
true).  Resolved futures never linger in the map: `_on_response` pops
the future in the same atomic block that resolves it. -/

inductive Slot where
  | pending : Slot
  | cancelled : Slot
deriving DecidableEq, Repr

/-- The `_futures` dictionary: correlation id → future. -/
abbrev SlotMap := List (String × Slot)

def lookupSlot : SlotMap → String → Option Slot
  | [], _ => none
  | (k, s) :: rest, key => if k = key then some s else lookupSlot rest key

def eraseSlot : SlotMap → String → SlotMap
  | [], _ => []
  | (k, s) :: rest, key =>
      if k = key then eraseSlot rest key else (k, s) :: eraseSlot rest key

/-- `self._futures[cid] = future` (dict assignment overwrites). -/
def insertSlot (m : SlotMap) (key : String) (s : Slot) : SlotMap :=
  (key, s) :: eraseSlot m key

def slotKeys (m : SlotMap) : List String := m.map Prod.fst

/-! ### Events and atomic steps

Each event is one atomic block of Python that touches `_futures`:

* `register cid` — `rpc_call` creates a future and inserts it
  (`self._futures[correlation_id] = future`).
* `publish cid` — `rpc_call` publishes the request message (does not
  touch the map; listed so traces can talk about ordering).
* `timeoutCancel cid` — the `asyncio.wait_for` timeout fires and
  cancels the future of the call awaiting `cid` (only possible while
  that future is still pending).
* `timeoutPop cid` — the `except asyncio.TimeoutError:` branch of
  `rpc_call` runs `self._futures.pop(correlation_id, None)` and
  re-raises the timeout.
* `reply cid decodable` — `_on_response` handles a delivery carrying
  correlation id `cid` whose body is (`decodable = true`) or is not
  valid JSON.
-/

inductive Event where
  | register : String → Event
  | publish : String → Event
  | timeoutCancel : String → Event
  | timeoutPop : String → Event
  | reply : String → Bool → Event
deriving DecidableEq, Repr

/-- Observable outcome of one event, used to state the claims. -/
inductive Act where
  | registered : String → Act
  | published : String → Act
  /-- `future.cancel()` by the `wait_for` timeout: the call is resolved
  by timeout. -/
  | timeoutCancelled : String → Act
  /-- the `except asyncio.TimeoutError` branch: pop then re-raise. -/
  | timeoutRaised : String → Act
  /-- `_on_response`: no pending slot matched — logged and dropped. -/
  | droppedNoSlot : String → Act
  /-- `_on_response`: slot popped and `future.set_result(payload)`. -/
  | resolvedOk : String → Act
  /-- `_on_response`: slot popped and `future.set_exception(exc)` for a
  JSON decode failure. -/
  | resolvedErr : String → Act
  /-- `_on_response`: slot popped but `future.done()` — result skipped. -/
  | ignoredDone : String → Act
  /-- `_on_response` decode-failure path reached a cancelled (done)
  future: `set_exception` on it raises `InvalidStateError` inside the
  callback (after the pop). -/
  | setExcOnDone : String → Act
  /-- event not enabled in this state (cannot happen in a real run). -/
  | noact : Act
deriving DecidableEq, Repr

/-- One atomic step, translated from `rabbitmq.py`. -/
def step (m : SlotMap) (e : Event) : SlotMap × Act :=
  match e with
  | .register cid => (insertSlot m cid .pending, .registered cid)
  | .publish cid => (m, .published cid)
  | .timeoutCancel cid =>
      match lookupSlot m cid with
      | some .pending => (insertSlot m cid .cancelled, .timeoutCancelled cid)
      | _ => (m, .noact)
  | .timeoutPop cid => (eraseSlot m cid, .timeoutRaised cid)
  | .reply cid decodable =>
      match lookupSlot m cid with
      | none => (m, .droppedNoSlot cid)
      | some slot =>
          let m' := eraseSlot m cid
          if decodable then
            match slot with
            | .pending => (m', .resolvedOk cid)
            | .cancelled => (m', .ignoredDone cid)
          else
            match slot with
            | .pending => (m', .resolvedErr cid)
            | .cancelled => (m', .setExcOnDone cid)

/-- Run a list of events, collecting the actions in order. -/
def run (m : SlotMap) : List Event → SlotMap × List Act
  | [] => (m, [])
  | e :: es =>
      let p := step m e
      let q := run p.1 es
      (q.1, p.2 :: q.2)

/-! ## The manager (`RabbitMQManager`)

Connection / channel / queue attributes are `Bool`s: `true` = the
attribute currently holds an object, `false` = it is `None`.
`ready` is the `asyncio.Event` `_ready` (`true` = set). -/

structure MgrState where
  disabledReason : Option String
  ready : Bool
  connection : Bool
  producerChannel : Bool
  consumerChannel : Bool
  callbackQueue : Bool
  futures : SlotMap
deriving DecidableEq, Repr

/-- `RabbitMQManager.is_available`:
`self._disabled_reason is None and self._ready.is_set()`. -/
def is_available (st : MgrState) : Bool :=
  st.disabledReason = none && st.ready

/-- `RabbitMQManager.close`: deletes the callback queue, closes both
channels and the connection (each attribute is reset to `None`), and
clears `_ready`.  `_futures` is not touched. -/
def close (st : MgrState) : MgrState :=
  { st with
      callbackQueue := false
      producerChannel := false
      consumerChannel := false
      connection := false
      ready := false }

/-- `RabbitMQManager.disable`: records the reason, then runs `close`. -/
def disable (st : MgrState) (reason : String) : MgrState :=
  close { st with disabledReason := some reason }

/-- Outcome of `RabbitMQManager.ensure_ready` as seen by its caller. -/
inductive ReadyOutcome where
  /-- `raise RuntimeError(f"RabbitMQ is disabled: ...")`. -/
  | raises : String → ReadyOutcome
  /-- `await self._ready.wait()` returns immediately. -/
  | proceeds : ReadyOutcome
  /-- `await self._ready.wait()` suspends until some other task sets
  `_ready` — the caller is blocked, nothing is raised. -/
  | blocks : ReadyOutcome
deriving DecidableEq, Repr

/-- `RabbitMQManager.ensure_ready`. -/
def ensure_ready (st : MgrState) : ReadyOutcome :=
  match st.disabledReason with
  | some r => .raises ("RabbitMQ is disabled: " ++ r)
  | none => if st.ready then .proceeds else .blocks

/-- The message built and published by `rpc_call`. -/
structure PublishedMessage where
  body : Val
  correlation_id : String
  /-- `reply_to=self._callback_queue.name`. -/
  reply_to : String
deriving DecidableEq, Repr

/-- The name of the exclusive callback queue (server-assigned; its
identity never matters, only that replies are routed back to it). -/
def callbackQueueName : String := "amq.gen-callback"

/-- What `rpc_call` has done by the time its publish is in flight. -/
inductive RpcStart where
  /-- an exception was raised before anything was published
  (`RuntimeError` from `ensure_ready` or the initialization check). -/
  | failed : String → RpcStart
  /-- `ensure_ready` blocked awaiting `_ready`; nothing published. -/
  | blocked : RpcStart
  /-- the pending future was registered and the message published;
  `MgrState` is the state at the publish suspension point. -/
  | published : MgrState → PublishedMessage → RpcStart
deriving DecidableEq, Repr

/-- The part of `RabbitMQManager.rpc_call` up to and including the
publish: `ensure_ready`, the initialization check, correlation-id and
future creation, `self._futures[correlation_id] = future` and then
`publish`.  `cid` stands for the freshly generated `uuid4` string. -/
def rpc_call_start (st : MgrState) (cid : String) (payload : Val) : RpcStart :=
  match ensure_ready st with
  | .raises msg => .failed msg
  | .blocks => .blocked
  | .proceeds =>
      if st.producerChannel = false ∨ st.callbackQueue = false then
        .failed "RabbitMQ manager is not initialized"
      else
        let st' := { st with futures := insertSlot st.futures cid .pending }
        .published st' ⟨payload, cid, callbackQueueName⟩

/-- The `except asyncio.TimeoutError:` branch of `rpc_call`: pop the
future (default `None`), then re-raise the timeout to the caller.
Returns the map after the pop; the timeout failure propagates after. -/
def rpc_call_on_timeout (futures : SlotMap) (cid : String) : SlotMap :=
  eraseSlot futures cid

/-! ## The worker dispatch loop (`RabbitMQManager._consume`) -/

/-- What awaiting a handler coroutine can do: return a response dict,
or raise (`str(exc)` recorded). -/
inductive HandlerResult where
  | success : Val → HandlerResult
  | exception : String → HandlerResult
deriving DecidableEq, Repr

/-- An incoming delivery on a work queue.  `body = none` models a body
that is not valid JSON (`json.loads` raises `JSONDecodeError`). -/
structure Delivery where
  body : Option Val
  correlation_id : Option String
  reply_to : Option String
deriving DecidableEq, Repr

/-- A reply message published by the dispatch loop. -/
structure PublishedReply where
  body : Val
  correlation_id : Option String
  routing_key : String
deriving DecidableEq, Repr

/-- The externally observable operations of one `_consume` invocation,
in program order.  `ack` is the acknowledgement performed when the
`message.process()` context exits normally; `raised` would be an
exception escaping the block (leaving the delivery unacknowledged). -/
inductive ConsumeOp where
  | publishReply : PublishedReply → ConsumeOp
  | ack : ConsumeOp
  | raised : String → ConsumeOp
deriving DecidableEq, Repr

/-- `{"status": "error", "error": msg}` — the envelope `_consume`
builds when the handler raises. -/
def errEnvelope (msg : String) : Val :=
  .obj [("status", .vstr "error"), ("error", .vstr msg)]

/-- `RabbitMQManager._consume`, translated line by line.  The body of
`async with message.process(ignore_processed=True)` decodes the
payload (a decode failure logs and returns → the delivery is still
acknowledged), awaits the handler inside `try/except Exception`
(a raise becomes an error envelope — it never escapes), and, when the
delivery carries `reply_to` and the producer channel is live, publishes
the response envelope with the original correlation id.  The `ack`
happens on normal context exit, strictly after the publish. -/
def consume (producerChannel : Bool) (msg : Delivery)
    (handler : Val → HandlerResult) : List ConsumeOp :=
  match msg.body with
  | none => [.ack]
  | some payload =>
      let response : Val :=
        match handler payload with
        | .success v => v
        | .exception m => errEnvelope m
      match msg.reply_to with
      | some rt =>
          if producerChannel then
            [.publishReply ⟨response, msg.correlation_id, rt⟩, .ack]
          else
            [.ack]
      | none => [.ack]

/-! ## The bound handlers (`create_asr_handler`, `create_llm_handler`)

The external collaborators (Whisper, the summarization service) are
opaque async functions; a raise is `Except.error (str(exc))`.  Pydantic
request models are embedded concretely for the ASR capability (needed
for the fallback-equivalence property) and as opaque parse/serialize
functions for the LLM capability. -/

/-- `{"status": "ok", "result": v}`. -/
def okEnvelope (v : Val) : Val :=
  .obj [("status", .vstr "ok"), ("result", v)]

/-- `models.TranscriptionRequest`. -/
structure TranscriptionRequest where
  language : Option String
  task : String
  word_timestamps : Bool
  initial_prompt : Option String
deriving DecidableEq, Repr

/-- `models.TranscriptionResponse`.  `duration` is a JSON number
(carried opaquely — no arithmetic is ever performed on it); `segments`
and `words` are optional arrays of loose dicts. -/
structure TranscriptionResponse where
  text : String
  language : String
  duration : Int
  segments : Option ValList
  words : Option ValList
deriving DecidableEq, Repr

/-- `models.BatchTranscriptionResponse`. -/
structure BatchTranscriptionResponse where
  results : List TranscriptionResponse
  total_files : Int
  successful_files : Int
  failed_files : Int
  errors : ValList
deriving DecidableEq, Repr

def optStrVal : Option String → Val
  | none => .vnull
  | some s => .vstr s

def optListVal : Option ValList → Val
  | none => .vnull
  | some xs => .varr xs

/-- `TranscriptionRequest.model_dump()`. -/
def TranscriptionRequest.model_dump (r : TranscriptionRequest) : Val :=
  .obj [("language", optStrVal r.language),
        ("task", .vstr r.task),
        ("word_timestamps", .vbool r.word_timestamps),
        ("initial_prompt", optStrVal r.initial_prompt)]

/-- `TranscriptionRequest(**d)` — pydantic validation of a dict.
Absent optional keys take their defaults; a field of the wrong shape
raises `ValidationError` (message abbreviated). -/
def TranscriptionRequest.model_validate (v : Val) : Except String TranscriptionRequest := do
  let language ← match vget v "language" with
    | none => .ok none
    | some .vnull => .ok none
    | some (.vstr s) => .ok (some s)
    | some _ => .error "ValidationError: language"
  let task ← match vget v "task" with
    | none => .ok "transcribe"
    | some (.vstr s) => .ok s
    | some _ => .error "ValidationError: task"
  let wts ← match vget v "word_timestamps" with
    | none => .ok false
    | some (.vbool b) => .ok b
    | some _ => .error "ValidationError: word_timestamps"
  let prompt ← match vget v "initial_prompt" with
    | none => .ok none
    | some .vnull => .ok none
    | some (.vstr s) => .ok (some s)
    | some _ => .error "ValidationError: initial_prompt"
  .ok ⟨language, task, wts, prompt⟩

/-- `TranscriptionResponse.model_dump()`. -/
def TranscriptionResponse.model_dump (r : TranscriptionResponse) : Val :=
  .obj [("text", .vstr r.text),
        ("language", .vstr r.language),
        ("duration", .vnum r.duration),
        ("segments", optListVal r.segments),
        ("words", optListVal r.words)]

/-- `TranscriptionResponse.model_validate(d)`. -/
def TranscriptionResponse.model_validate (v : Val) : Except String TranscriptionResponse := do
  let text ← match vget v "text" with
    | some (.vstr s) => .ok s
    | _ => .error "ValidationError: text"
  let language ← match vget v "language" with
    | some (.vstr s) => .ok s
    | _ => .error "ValidationError: language"
  let duration ← match vget v "duration" with
    | some (.vnum n) => .ok n
    | _ => .error "ValidationError: duration"
  let segments ← match vget v "segments" with
    | none => .ok none
    | some .vnull => .ok none
    | some (.varr xs) => .ok (some xs)
    | some _ => .error "ValidationError: segments"
  let words ← match vget v "words" with
    | none => .ok none
    | some .vnull => .ok none
    | some (.varr xs) => .ok (some xs)
    | some _ => .error "ValidationError: words"
  .ok ⟨text, language, duration, segments, words⟩

def dumpTranscriptionList : List TranscriptionResponse → ValList
  | [] => .nil
  | r :: rest => .cons r.model_dump (dumpTranscriptionList rest)

def validateTranscriptionList : ValList → Except String (List TranscriptionResponse)
  | .nil => .ok []
  | .cons v rest => do
      let r ← TranscriptionResponse.model_validate v
      let rs ← validateTranscriptionList rest
      .ok (r :: rs)

/-- `BatchTranscriptionResponse.model_dump()`. -/
def BatchTranscriptionResponse.model_dump (r : BatchTranscriptionResponse) : Val :=
  .obj [("results", .varr (dumpTranscriptionList r.results)),
        ("total_files", .vnum r.total_files),
        ("successful_files", .vnum r.successful_files),
        ("failed_files", .vnum r.failed_files),
        ("errors", .varr r.errors)]

/-- `BatchTranscriptionResponse.model_validate(d)`. -/
def BatchTranscriptionResponse.model_validate (v : Val) :
    Except String BatchTranscriptionResponse := do
  let results ← match vget v "results" with
    | some (.varr xs) => validateTranscriptionList xs
    | _ => .error "ValidationError: results"
  let total ← match vget v "total_files" with
    | some (.vnum n) => .ok n
    | _ => .error "ValidationError: total_files"
  let succ ← match vget v "successful_files" with
    | some (.vnum n) => .ok n
    | _ => .error "ValidationError: successful_files"
  let failed ← match vget v "failed_files" with
    | some (.vnum n) => .ok n
    | _ => .error "ValidationError: failed_files"
  let errors ← match vget v "errors" with
    | none => .ok ValList.nil
    | some (.varr xs) => .ok xs
    | some _ => .error "ValidationError: errors"
  .ok ⟨results, total, succ, failed, errors⟩

/-- The Whisper collaborator (`WhisperService`): opaque async methods.
Paths travel as loose JSON values, exactly as the Python code passes
`payload["audio_path"]` / `payload["audio_paths"]` through untyped. -/
structure WhisperService where
  transcribe_file : Val → TranscriptionRequest → Except String TranscriptionResponse
  transcribe_batch : Val → TranscriptionRequest → Except String BatchTranscriptionResponse

/-- `create_asr_handler(whisper_service)` — the returned `_handler`.
Every branch returns a dict: internal raises are caught by the outer
`except Exception` and become `{"status":"error","error":str(exc)}`,
so the `HandlerResult` is always `success`. -/
def create_asr_handler (w : WhisperService) (payload : Val) : HandlerResult :=
  let action := vget payload "action"
  let body : Except String Val :=
    if action = some (.vstr "transcribe_file") then do
      let reqVal ← vindex payload "request"
      let request ← TranscriptionRequest.model_validate reqVal
      let audio_path ← vindex payload "audio_path"
      let result ← w.transcribe_file audio_path request
      .ok (okEnvelope result.model_dump)
    else if action = some (.vstr "transcribe_batch") then do
      let reqVal ← vindex payload "request"
      let request ← TranscriptionRequest.model_validate reqVal
      let audio_paths ← vindex payload "audio_paths"
      let result ← w.transcribe_batch audio_paths request
      .ok (okEnvelope result.model_dump)
    else
      .ok (.obj [("status", .vstr "error"),
                 ("error", .vstr ("Unknown ASR action '" ++ pyFStr action ++ "'"))])
  match body with
  | .ok v => .success v
  | .error e => .success (errEnvelope e)

/-- The summarization collaborator.  Each method takes the raw
`payload["request"]` dict and yields the serialized (`model_dump`ed)
result the handler would embed, or raises; pydantic validation of the
request is folded into the same opaque function (no claim inspects
these internals). -/
structure SummarizationService where
  summarize : Val → Except String Val
  summarize_call : Val → Except String Val
  score_checklist : Val → Except String Val
  health : Except String Val

/-- `create_llm_handler(service)` — the returned `_handler`.  As in the
ASR handler, both `except SummarizationServiceError` and the generic
`except Exception` turn a raise into an error envelope, so every branch
returns a dict. -/
def create_llm_handler (svc : SummarizationService) (payload : Val) : HandlerResult :=
  let action := vget payload "action"
  let body : Except String Val :=
    if action = some (.vstr "summarize") then do
      let reqVal ← vindex payload "request"
      let result ← svc.summarize reqVal
      .ok (okEnvelope result)
    else if action = some (.vstr "summarize_call") then do
      let reqVal ← vindex payload "request"
      let result ← svc.summarize_call reqVal
      .ok (okEnvelope result)
    else if action = some (.vstr "score_checklist") then do
      let reqVal ← vindex payload "request"
      let result ← svc.score_checklist reqVal
      .ok (okEnvelope result)
    else if action = some (.vstr "health") then do
      let status ← svc.health
      .ok (okEnvelope status)
    else
      .ok (.obj [("status", .vstr "error"),
                 ("error", .vstr ("Unknown LLM action '" ++ pyFStr action ++ "'"))])
  match body with
  | .ok v => .success v
  | .error e => .success (errEnvelope e)

/-! ## The reply-consuming callback (`RabbitMQManager._on_response`)

The value-level version of the `reply` event of `step`: it also records
which value or exception the popped future is resolved with. -/

inductive ResponseAct where
  /-- no correlation id on the message: logged, dropped. -/
  | droppedNoCid : ResponseAct
  /-- no pending slot matches: logged, dropped (late/duplicate reply). -/
  | droppedNoSlot : ResponseAct
  /-- slot popped, body decoded, `future.set_result(payload)`. -/
  | setResult : Val → ResponseAct
  /-- slot popped, body undecodable, `future.set_exception(exc)` — the
  waiting `rpc_call` will raise this decode error. -/
  | setExc : String → ResponseAct
  /-- slot popped, body undecodable, but the future was already
  cancelled: `set_exception` raises `InvalidStateError` in the
  callback. -/
  | invalidState : ResponseAct
  /-- slot popped, body decoded, but `future.done()`: result skipped. -/
  | skippedDone : ResponseAct
deriving DecidableEq, Repr

/-- `RabbitMQManager._on_response`; `body = none` models a body that
`json.loads` rejects (the decode-error message is abbreviated). -/
def on_response (m : SlotMap) (cid? : Option String) (body : Option Val) :
    SlotMap × ResponseAct :=
  match cid? with
  | none => (m, .droppedNoCid)
  | some cid =>
      match lookupSlot m cid with
      | none => (m, .droppedNoSlot)
      | some slot =>
          let m' := eraseSlot m cid
          match body with
          | none =>
              match slot with
              | .pending => (m', .setExc "JSONDecodeError")
              | .cancelled => (m', .invalidState)
          | some payload =>
              match slot with
              | .pending => (m', .setResult payload)
              | .cancelled => (m', .skippedDone)

/-! ## The gateway façades (`services_gateway.py`) -/

/-- What an awaited `rpc_call` delivers to a façade `_call`. -/
inductive RpcOutcome where
  /-- `RuntimeError` raised before publishing (disabled / no channel). -/
  | runtimeErr : String → RpcOutcome
  /-- `asyncio.TimeoutError` from `asyncio.wait_for`. -/
  | timeout : RpcOutcome
  /-- the future was resolved with a `JSONDecodeError` by
  `_on_response`; awaiting it re-raises that error. -/
  | decodeError : String → RpcOutcome
  /-- the future was resolved with the decoded response envelope. -/
  | envelope : Val → RpcOutcome
  /-- `ensure_ready` blocked; the call never returns (yet). -/
  | blocked : RpcOutcome
deriving DecidableEq, Repr

/-- How a resolved future is observed by the `rpc_call` awaiting it. -/
def rpc_await : ResponseAct → Option RpcOutcome
  | .setResult v => some (.envelope v)
  | .setExc m => some (.decodeError m)
  | _ => none

/-- Result of a façade coroutine as observed by its caller. -/
inductive PyResult (α : Type) where
  | ret : α → PyResult α
  /-- `raise HTTPException(status_code, detail)`. -/
  | httpExc : Nat → Val → PyResult α
  /-- an uncaught `RuntimeError`. -/
  | runtimeExc : String → PyResult α
  /-- any other uncaught exception (e.g. validation/decode errors). -/
  | pyExc : String → PyResult α
  /-- suspended forever awaiting readiness. -/
  | blocked : PyResult α
deriving DecidableEq, Repr

/-- `ASRRpcGateway._call`: forwards to `rpc_call` on the ASR queue,
maps `asyncio.TimeoutError` to HTTP 504, checks the envelope status,
and rejects an absent or `None` result (`envelope.get("result")` is
`None` in both cases). -/
def asr_gateway_call (rpc : RpcOutcome) : PyResult Val :=
  match rpc with
  | .runtimeErr m => .runtimeExc m
  | .blocked => .blocked
  | .timeout => .httpExc 504 (.vstr "ASR request timed out")
  | .decodeError m => .pyExc m
  | .envelope env =>
      match vget env "status" with
      | some (.vstr "ok") =>
          match vget env "result" with
          | none => .httpExc 502 (.vstr "ASR task returned empty result")
          | some .vnull => .httpExc 502 (.vstr "ASR task returned empty result")
          | some v => .ret v
      | _ => .httpExc 502 (vgetD env "error" (.vstr "ASR task failed"))

/-- `SummarizationRpcGateway._call`: same shape, but the empty-result
check is `"result" not in envelope` — a present `null` passes. -/
def llm_gateway_call (rpc : RpcOutcome) : PyResult Val :=
  match rpc with
  | .runtimeErr m => .runtimeExc m
  | .blocked => .blocked
  | .timeout => .httpExc 504 (.vstr "LLM request timed out")
  | .decodeError m => .pyExc m
  | .envelope env =>
      match vget env "status" with
      | some (.vstr "ok") =>
          match vget env "result" with
          | none => .httpExc 502 (.vstr "LLM task returned empty result")
          | some v => .ret v
      | _ => .httpExc 502 (vgetD env "error" (.vstr "LLM task failed"))

/-- `ASRRpcGateway._direct_transcribe_file`: run the Whisper service
in-process; any raise becomes HTTP 502 `"ASR task failed: ..."`. -/
def asr_direct_transcribe_file (w : WhisperService) (audio_path : String)
    (request : TranscriptionRequest) : PyResult TranscriptionResponse :=
  match w.transcribe_file (.vstr audio_path) request with
  | .ok r => .ret r
  | .error e => .httpExc 502 (.vstr ("ASR task failed: " ++ e))

/-- `ASRRpcGateway._direct_transcribe_batch`. -/
def asr_direct_transcribe_batch (w : WhisperService) (audio_paths : List String)
    (request : TranscriptionRequest) : PyResult BatchTranscriptionResponse :=
  match w.transcribe_batch (.arr (audio_paths.map Val.vstr)) request with
  | .ok r => .ret r
  | .error e => .httpExc 502 (.vstr ("ASR task failed: " ++ e))

/-- The payload `ASRRpcGateway.transcribe_file` publishes. -/
def asr_file_payload (audio_path : String) (request : TranscriptionRequest) : Val :=
  .obj [("action", .vstr "transcribe_file"),
        ("audio_path", .vstr audio_path),
        ("request", request.model_dump)]

/-- The payload `ASRRpcGateway.transcribe_batch` publishes. -/
def asr_batch_payload (audio_paths : List String) (request : TranscriptionRequest) : Val :=
  .obj [("action", .vstr "transcribe_batch"),
        ("audio_paths", .arr (audio_paths.map Val.vstr)),
        ("request", request.model_dump)]

/-- `ASRRpcGateway.transcribe_file`: if the manager is unavailable, run
directly; otherwise go through `_call`, falling back to the direct path
on `RuntimeError`; finally `TranscriptionResponse.model_validate`.
`available` is `rabbitmq_manager.is_available`; `rpc` is what the
broker round trip delivers when attempted. -/
def asr_transcribe_file (available : Bool) (rpc : RpcOutcome) (w : WhisperService)
    (audio_path : String) (request : TranscriptionRequest) :
    PyResult TranscriptionResponse :=
  if available = false then
    asr_direct_transcribe_file w audio_path request
  else
    match asr_gateway_call rpc with
    | .runtimeExc _ => asr_direct_transcribe_file w audio_path request
    | .ret env =>
        match TranscriptionResponse.model_validate env with
        | .ok r => .ret r
        | .error e => .pyExc e
    | .httpExc c d => .httpExc c d
    | .pyExc m => .pyExc m
    | .blocked => .blocked

/-- `ASRRpcGateway.transcribe_batch` (same structure). -/
def asr_transcribe_batch (available : Bool) (rpc : RpcOutcome) (w : WhisperService)
    (audio_paths : List String) (request : TranscriptionRequest) :
    PyResult BatchTranscriptionResponse :=
  if available = false then
    asr_direct_transcribe_batch w audio_paths request
  else
    match asr_gateway_call rpc with
    | .runtimeExc _ => asr_direct_transcribe_batch w audio_paths request
    | .ret env =>
        match BatchTranscriptionResponse.model_validate env with
        | .ok r => .ret r
        | .error e => .pyExc e
    | .httpExc c d => .httpExc c d
    | .pyExc m => .pyExc m
    | .blocked => .blocked

/-- `SummarizationRpcGateway.summarize` / `summarize_call` /
`score_checklist`, abstracted over the pydantic validation applied to
the returned result (`model_validate`, which raises on a mismatch). -/
def llm_op_result {α : Type} (rpc : RpcOutcome) (validate : Val → Except String α) :
    PyResult α :=
  match llm_gateway_call rpc with
  | .ret v =>
      match validate v with
      | .ok r => .ret r
      | .error e => .pyExc e
  | .httpExc c d => .httpExc c d
  | .runtimeExc m => .runtimeExc m
  | .pyExc m => .pyExc m
  | .blocked => .blocked

/-- Events that remove `cid`'s slot from the map: the timeout pop and
any reply carrying `cid` (which consumes the slot when present). -/
def removesCid (e : Event) (cid : String) : Bool :=
  match e with
  | .timeoutPop c => c = cid
  | .reply c _ => c = cid
  | _ => false

/-- Does this action resolve the call `cid` (set its result, set an
exception on it, or cancel its future by timeout)? -/
def isResolution (cid : String) : Act → Bool
  | .resolvedOk c => c = cid
  | .resolvedErr c => c = cid
  | .timeoutCancelled c => c = cid
  | _ => false

/-- Number of resolutions of `cid` among the observed actions. -/
def countRes (cid : String) (as : List Act) : Nat :=
  as.countP (fun a => isResolution cid a)

/-- Number of times the trace registers a fresh future for `cid`. -/
def countReg (cid : String) (es : List Event) : Nat :=
  es.countP (fun e => e = Event.register cid)

/-- How many further resolutions the current slot of `cid` can absorb:
one while a pending future is in the map, none otherwise. -/
def budget (m : SlotMap) (cid : String) : Nat :=
  match lookupSlot m cid with
  | some .pending => 1
  | _ => 0

/-! ## Helper lemmas on the pending-call map -/

theorem lookupSlot_insertSlot_self (m : SlotMap) (cid : String) (s : Slot) :
    lookupSlot (insertSlot m cid s) cid = some s := by
  simp [insertSlot, lookupSlot]

theorem lookupSlot_eraseSlot_self (m : SlotMap) (cid : String) :
    lookupSlot (eraseSlot m cid) cid = none := by
  induction m with
  | nil => simp [eraseSlot, lookupSlot]
  | cons kv rest ih =>
      obtain ⟨k, s⟩ := kv
      by_cases h : k = cid
      · simp [eraseSlot, h, ih]
      · simp [eraseSlot, h, lookupSlot, ih]

theorem lookupSlot_eraseSlot_ne (m : SlotMap) (cid cid' : String) (h : cid' ≠ cid) :
    lookupSlot (eraseSlot m cid) cid' = lookupSlot m cid' := by
  induction m with
  | nil => simp [eraseSlot]
  | cons kv rest ih =>
      obtain ⟨k, s⟩ := kv
      by_cases hk : k = cid
      · subst hk
        simp [eraseSlot, lookupSlot, Ne.symm h, ih]
      · by_cases hk' : k = cid'
        · subst hk'
          simp [eraseSlot, hk, lookupSlot]
        · simp [eraseSlot, hk, lookupSlot, hk', ih]

theorem lookupSlot_insertSlot_ne (m : SlotMap) (cid cid' : String) (s : Slot)
    (h : cid' ≠ cid) :
    lookupSlot (insertSlot m cid s) cid' = lookupSlot m cid' := by
  simp [insertSlot, lookupSlot, Ne.symm h, lookupSlot_eraseSlot_ne m cid cid' h]

theorem mem_slotKeys_iff (m : SlotMap) (cid : String) :
    cid ∈ slotKeys m ↔ lookupSlot m cid ≠ none := by
  induction m with
  | nil => simp [slotKeys, lookupSlot]
  | cons kv rest ih =>
      obtain ⟨k, s⟩ := kv
      by_cases h : k = cid
      · simp [slotKeys, lookupSlot, h]
      · simp only [slotKeys, List.map_cons, List.mem_cons, lookupSlot, if_neg h]
        constructor
        · intro hc
          rcases hc with hc | hc
          · exact absurd hc.symm h
          · exact (ih.mp (by simpa [slotKeys] using hc))
        · intro hc
          exact Or.inr (by simpa [slotKeys] using ih.mpr hc)

theorem slotKeys_eraseSlot_sublist (m : SlotMap) (cid : String) :
    (slotKeys (eraseSlot m cid)).Sublist (slotKeys m) := by
  induction m with
  | nil => simp [eraseSlot]
  | cons kv rest ih =>
      obtain ⟨k, s⟩ := kv
      by_cases h : k = cid
      · simpa [eraseSlot, h, slotKeys] using ih.trans (List.sublist_cons_self k _)
      · simpa [eraseSlot, h, slotKeys] using ih.cons₂ k

theorem nodup_slotKeys_eraseSlot (m : SlotMap) (cid : String)
    (h : (slotKeys m).Nodup) : (slotKeys (eraseSlot m cid)).Nodup :=
  (slotKeys_eraseSlot_sublist m cid).nodup h

theorem nodup_slotKeys_insertSlot (m : SlotMap) (cid : String) (s : Slot)
    (h : (slotKeys m).Nodup) : (slotKeys (insertSlot m cid s)).Nodup := by
  have hout : cid ∉ slotKeys (eraseSlot m cid) := by
    rw [mem_slotKeys_iff]
    simp [lookupSlot_eraseSlot_self]
  simpa [insertSlot, slotKeys] using
    And.intro hout (nodup_slotKeys_eraseSlot m cid h)

theorem step_preserves_present (m : SlotMap) (e : Event) (cid : String)
    (hrem : removesCid e cid = false) (hpres : lookupSlot m cid ≠ none) :
    lookupSlot (step m e).1 cid ≠ none := by
  cases e with
  | register c =>
      by_cases h : c = cid
      · rw [← h]; simp [step, lookupSlot_insertSlot_self]
      · simpa [step, lookupSlot_insertSlot_ne m c cid _ (Ne.symm h)] using hpres
  | publish c => simpa [step] using hpres
  | timeoutCancel c =>
      rcases hs : lookupSlot m c with _ | s
      · simpa [step, hs] using hpres
      · cases s with
        | pending =>
            by_cases h : c = cid
            · rw [← h]; simp [step, hs, lookupSlot_insertSlot_self]
            · simpa [step, hs, lookupSlot_insertSlot_ne m c cid _ (Ne.symm h)] using hpres
        | cancelled => simpa [step, hs] using hpres
  | timeoutPop c =>
      have h : c ≠ cid := by simpa [removesCid] using hrem
      simpa [step, lookupSlot_eraseSlot_ne m c cid (Ne.symm h)] using hpres
  | reply c d =>
      have h : c ≠ cid := by simpa [removesCid] using hrem
      rcases hs : lookupSlot m c with _ | s
      · simpa [step, hs] using hpres
      · cases s with
        | pending =>
            cases d with
            | true => simpa [step, hs, lookupSlot_eraseSlot_ne m c cid (Ne.symm h)] using hpres
            | false => simpa [step, hs, lookupSlot_eraseSlot_ne m c cid (Ne.symm h)] using hpres
        | cancelled =>
            cases d with
            | true => simpa [step, hs, lookupSlot_eraseSlot_ne m c cid (Ne.symm h)] using hpres
            | false => simpa [step, hs, lookupSlot_eraseSlot_ne m c cid (Ne.symm h)] using hpres

theorem run_preserves_present (m : SlotMap) (es : List Event) (cid : String)
    (hrem : ∀ e ∈ es, removesCid e cid = false)
    (hpres : lookupSlot m cid ≠ none) :
    lookupSlot (run m es).1 cid ≠ none := by
  induction es generalizing m with
  | nil => simpa [run] using hpres
  | cons e es ih =>
      simp only [run]
      exact ih (step m e).1 (fun e' he' => hrem e' (List.mem_cons_of_mem e he'))
        (step_preserves_present m e cid (hrem e (List.mem_cons_self e es)) hpres)

theorem step_preserves_absent (m : SlotMap) (e : Event) (cid : String)
    (hreg : e ≠ .register cid) (habs : lookupSlot m cid = none) :
    lookupSlot (step m e).1 cid = none := by
  cases e with
  | register c =>
      have h : c ≠ cid := fun hc => hreg (by rw [hc])
      simpa [step, lookupSlot_insertSlot_ne m c cid _ (Ne.symm h)] using habs
  | publish c => simpa [step] using habs
  | timeoutCancel c =>
      rcases hs : lookupSlot m c with _ | s
      · simpa [step, hs] using habs
      · cases s with
        | pending =>
            have h : c ≠ cid := by
              intro hc; rw [hc, habs] at hs; exact Option.noConfusion hs
            simpa [step, hs, lookupSlot_insertSlot_ne m c cid _ (Ne.symm h)] using habs
        | cancelled => simpa [step, hs] using habs
  | timeoutPop c =>
      by_cases h : c = cid
      · rw [← h]; simp [step, lookupSlot_eraseSlot_self]
      · simpa [step, lookupSlot_eraseSlot_ne m c cid (Ne.symm h)] using habs
  | reply c d =>
      rcases hs : lookupSlot m c with _ | s
      · simpa [step, hs] using habs
      · have h : c ≠ cid := by
          intro hc; rw [hc, habs] at hs; exact Option.noConfusion hs
        cases s with
        | pending =>
            cases d with
            | true => simpa [step, hs, lookupSlot_eraseSlot_ne m c cid (Ne.symm h)] using habs
            | false => simpa [step, hs, lookupSlot_eraseSlot_ne m c cid (Ne.symm h)] using habs
        | cancelled =>
            cases d with
            | true => simpa [step, hs, lookupSlot_eraseSlot_ne m c cid (Ne.symm h)] using habs
            | false => simpa [step, hs, lookupSlot_eraseSlot_ne m c cid (Ne.symm h)] using habs

theorem run_preserves_absent (m : SlotMap) (es : List Event) (cid : String)
    (hreg : ∀ e ∈ es, e ≠ .register cid)
    (habs : lookupSlot m cid = none) :
    lookupSlot (run m es).1 cid = none := by
  induction es generalizing m with
  | nil => simpa [run] using habs
  | cons e es ih =>
      simp only [run]
      exact ih (step m e).1 (fun e' he' => hreg e' (List.mem_cons_of_mem e he'))
        (step_preserves_absent m e cid (hreg e (List.mem_cons_self e es)) habs)

theorem step_preserves_nodup (m : SlotMap) (e : Event)
    (h : (slotKeys m).Nodup) : (slotKeys (step m e).1).Nodup := by
  cases e with
  | register c => exact nodup_slotKeys_insertSlot m c _ h
  | publish c => simpa [step] using h
  | timeoutCancel c =>
      rcases hs : lookupSlot m c with _ | s
      · simpa [step, hs] using h
      · cases s with
        | pending =>
            simpa [step, hs] using nodup_slotKeys_insertSlot m c .cancelled h
        | cancelled => simpa [step, hs] using h
  | timeoutPop c => simpa [step] using nodup_slotKeys_eraseSlot m c h
  | reply c d =>
      rcases hs : lookupSlot m c with _ | s
      · simpa [step, hs] using h
      · cases s with
        | pending =>
            cases d with
            | true => simpa [step, hs] using nodup_slotKeys_eraseSlot m c h
            | false => simpa [step, hs] using nodup_slotKeys_eraseSlot m c h
        | cancelled =>
            cases d with
            | true => simpa [step, hs] using nodup_slotKeys_eraseSlot m c h
            | false => simpa [step, hs] using nodup_slotKeys_eraseSlot m c h

theorem run_preserves_nodup (m : SlotMap) (es : List Event)
    (h : (slotKeys m).Nodup) : (slotKeys (run m es).1).Nodup := by
  induction es generalizing m with
  | nil => simpa [run] using h
  | cons e es ih =>
      simp only [run]
      exact ih (step m e).1 (step_preserves_nodup m e h)

theorem countRes_le_budget_add_countReg (m : SlotMap) (es : List Event) (cid : String) :
    countRes cid (run m es).2 ≤ budget m cid + countReg cid es := by
  induction es generalizing m with
  | nil => simp [run, countRes, countReg]
  | cons e es ih =>
      simp only [run, countRes, countReg, List.countP_cons]
      cases e with
      | register c =>
          have hih := ih (insertSlot m c .pending)
          by_cases h : c = cid
          · subst h
            have hb : budget (insertSlot m c .pending) c = 1 := by
              simp [budget, lookupSlot_insertSlot_self]
            rw [hb] at hih
            simp only [step]
            simp only [countRes, countReg] at hih
            simp [isResolution] at hih ⊢
            omega
          · have hb : budget (insertSlot m c .pending) cid = budget m cid := by
              simp [budget, lookupSlot_insertSlot_ne m c cid _ (Ne.symm h)]
            rw [hb] at hih
            simp only [step]
            simp only [countRes, countReg] at hih
            simp [isResolution, h] at hih ⊢
            omega
      | publish c =>
          have hih := ih m
          simp only [step]
          simp only [countRes, countReg] at hih
          simp [isResolution] at hih ⊢
          omega
      | timeoutCancel c =>
          rcases hs : lookupSlot m c with _ | s
          · have hih := ih m
            simp only [step, hs]
            simp only [countRes, countReg] at hih
            simp [isResolution] at hih ⊢
            omega
          · cases s with
            | pending =>
                have hih := ih (insertSlot m c .cancelled)
                by_cases h : c = cid
                · subst h
                  have hb1 : budget m c = 1 := by simp [budget, hs]
                  have hb0 : budget (insertSlot m c .cancelled) c = 0 := by
                    simp [budget, lookupSlot_insertSlot_self]
                  rw [hb0] at hih
                  rw [hb1]
                  simp only [step, hs]
                  simp only [countRes, countReg] at hih
                  simp [isResolution] at hih ⊢
                  omega
                · have hb : budget (insertSlot m c .cancelled) cid = budget m cid := by
                    simp [budget, lookupSlot_insertSlot_ne m c cid _ (Ne.symm h)]
                  rw [hb] at hih
                  simp only [step, hs]
                  simp only [countRes, countReg] at hih
                  simp [isResolution, h] at hih ⊢
                  omega
            | cancelled =>
                have hih := ih m
                simp only [step, hs]
                simp only [countRes, countReg] at hih
                simp [isResolution] at hih ⊢
                omega
      | timeoutPop c =>
          have hb : budget (eraseSlot m c) cid ≤ budget m cid := by
            by_cases h : c = cid
            · subst h; simp [budget, lookupSlot_eraseSlot_self]
            · simp [budget, lookupSlot_eraseSlot_ne m c cid (Ne.symm h)]
          have hih := ih (eraseSlot m c)
          simp only [step]
          simp only [countRes, countReg] at hih
          simp [isResolution] at hih ⊢
          omega
      | reply c d =>
          rcases hs : lookupSlot m c with _ | s
          · have hih := ih m
            simp only [step, hs]
            simp only [countRes, countReg] at hih
            simp [isResolution] at hih ⊢
            omega
          · have hih := ih (eraseSlot m c)
            cases s with
            | pending =>
                by_cases h : c = cid
                · subst h
                  have hb1 : budget m c = 1 := by simp [budget, hs]
                  have hb0 : budget (eraseSlot m c) c = 0 := by
                    simp [budget, lookupSlot_eraseSlot_self]
                  rw [hb0] at hih
                  rw [hb1]
                  cases d with
                  | true =>
                      simp only [step, hs]
                      simp only [countRes, countReg] at hih
                      simp [isResolution] at hih ⊢
                      omega
                  | false =>
                      simp only [step, hs]
                      simp only [countRes, countReg] at hih
                      simp [isResolution] at hih ⊢
                      omega
                · have hb : budget (eraseSlot m c) cid = budget m cid := by
                    simp [budget, lookupSlot_eraseSlot_ne m c cid (Ne.symm h)]
                  rw [hb] at hih
                  cases d with
                  | true =>
                      simp only [step, hs]
                      simp only [countRes, countReg] at hih
                      simp [isResolution, h] at hih ⊢
                      omega
                  | false =>
                      simp only [step, hs]
                      simp only [countRes, countReg] at hih
                      simp [isResolution, h] at hih ⊢
                      omega
            | cancelled =>
                have hb : budget (eraseSlot m c) cid ≤ budget m cid := by
                  by_cases h : c = cid
                  · subst h; simp [budget, lookupSlot_eraseSlot_self]
                  · simp [budget, lookupSlot_eraseSlot_ne m c cid (Ne.symm h)]
                cases d with
                | true =>
                    simp only [step, hs]
                    simp only [countRes, countReg] at hih
                    simp [isResolution] at hih ⊢
                    omega
                | false =>
                    simp only [step, hs]
                    simp only [countRes, countReg] at hih
                    simp [isResolution] at hih ⊢
                    omega

/-! ## Pydantic round trips: `model_validate (model_dump r) = r` -/

theorem exceptOk_bind {α β : Type} (x : α) (f : α → Except String β) :
    (Except.ok x : Except String α) >>= f = f x := rfl

theorem exceptError_bind {α β : Type} (e : String) (f : α → Except String β) :
    (Except.error e : Except String α) >>= f = .error e := rfl

theorem transcriptionRequest_roundtrip (r : TranscriptionRequest) :
    TranscriptionRequest.model_validate r.model_dump = .ok r := by
  obtain ⟨lang, task, wts, prompt⟩ := r
  cases lang <;> cases prompt <;> rfl

theorem transcriptionResponse_roundtrip (r : TranscriptionResponse) :
    TranscriptionResponse.model_validate r.model_dump = .ok r := by
  obtain ⟨text, lang, dur, segs, words⟩ := r
  cases segs <;> cases words <;> rfl

theorem transcriptionList_roundtrip (rs : List TranscriptionResponse) :
    validateTranscriptionList (dumpTranscriptionList rs) = .ok rs := by
  induction rs with
  | nil => rfl
  | cons r rs ih =>
      simp [dumpTranscriptionList, validateTranscriptionList,
        transcriptionResponse_roundtrip r, ih, exceptOk_bind]

theorem batchTranscriptionResponse_roundtrip (r : BatchTranscriptionResponse) :
    BatchTranscriptionResponse.model_validate r.model_dump = .ok r := by
  obtain ⟨results, total, succ, failed, errors⟩ := r
  simp [BatchTranscriptionResponse.model_dump, BatchTranscriptionResponse.model_validate,
    Val.obj, fieldsOf, vget, vfindField, transcriptionList_roundtrip, exceptOk_bind]

/-! ## Broker-path lemmas for the ASR façade -/

/-- When the handler succeeds, `create_asr_handler` answers a
`transcribe_file` payload with the ok envelope of the dumped result. -/
theorem create_asr_handler_file_ok (w : WhisperService) (path : String)
    (req : TranscriptionRequest) (resp : TranscriptionResponse)
    (hfile : w.transcribe_file (.vstr path) req = .ok resp) :
    create_asr_handler w (asr_file_payload path req) = .success (okEnvelope resp.model_dump) := by
  simp [create_asr_handler, asr_file_payload, Val.obj, fieldsOf, vget, vfindField,
    vindex, transcriptionRequest_roundtrip, hfile, okEnvelope, exceptOk_bind]

/-- Batch analogue of `create_asr_handler_file_ok`. -/
theorem create_asr_handler_batch_ok (w : WhisperService) (paths : List String)
    (req : TranscriptionRequest) (bresp : BatchTranscriptionResponse)
    (hbatch : w.transcribe_batch (.arr (paths.map Val.vstr)) req = .ok bresp) :
    create_asr_handler w (asr_batch_payload paths req) = .success (okEnvelope bresp.model_dump) := by
  simp [create_asr_handler, asr_batch_payload, Val.obj, fieldsOf, vget, vfindField,
    vindex, transcriptionRequest_roundtrip, hbatch, okEnvelope, exceptOk_bind]

/-- Decoding the broker reply `okEnvelope (resp.model_dump)` gives back
`resp` in `transcribe_file`. -/
theorem asr_file_broker_ok (w : WhisperService) (path : String)
    (req : TranscriptionRequest) (resp : TranscriptionResponse) :
    asr_transcribe_file true (.envelope (okEnvelope resp.model_dump)) w path req = .ret resp := by
  obtain ⟨text, lang, dur, segs, words⟩ := resp
  cases segs <;> cases words <;>
    simp [asr_transcribe_file, asr_gateway_call, okEnvelope, Val.obj, fieldsOf, vget,
      vfindField, TranscriptionResponse.model_dump, TranscriptionResponse.model_validate,
      optListVal, exceptOk_bind]

/-- Batch analogue of `asr_file_broker_ok`. -/
theorem asr_batch_broker_ok (w : WhisperService) (paths : List String)
    (req : TranscriptionRequest) (bresp : BatchTranscriptionResponse) :
    asr_transcribe_batch true (.envelope (okEnvelope bresp.model_dump)) w paths req = .ret bresp := by
  obtain ⟨results, total, succ, failed, errors⟩ := bresp
  simp [asr_transcribe_batch, asr_gateway_call, okEnvelope, Val.obj, fieldsOf, vget,
    vfindField, BatchTranscriptionResponse.model_dump, BatchTranscriptionResponse.model_validate,
    transcriptionList_roundtrip, exceptOk_bind]

/-! ## Claim C1 -/

/-- C1, counterexample: a manager in the `Ready` state with one pending
call `"c1"`; after `disable("broker unreachable")` the call is still in
the pending map, still pending — it was not failed with a connectivity
error, contradicting the claim that no pending call is left to hang
until its own timeout. -/
theorem disable_leaves_pending_call_pending :
    lookupSlot (disable ⟨none, true, true, true, true, true, [("c1", .pending)]⟩
        "broker unreachable").futures "c1" = some .pending ∧
    (disable ⟨none, true, true, true, true, true, [("c1", .pending)]⟩
        "broker unreachable").futures = [("c1", .pending)] := by
  exact ⟨rfl, rfl⟩

/-- C1, amended: `disable(reason)` records the reason, tears down the
callback queue, both channels and the connection, and clears readiness,
but does NOT fail the still-pending calls: `close` and `disable` leave
`_futures` untouched, so each pending call hangs until its own
`rpc_call` timeout fires. -/
theorem disable_tears_down_but_keeps_pending_map :
    ∀ (st : MgrState) (r : String),
      (disable st r).futures = st.futures ∧
      (close st).futures = st.futures ∧
      (disable st r).disabledReason = some r ∧
      is_available (disable st r) = false ∧
      (disable st r).ready = false ∧
      (disable st r).producerChannel = false ∧
      (disable st r).consumerChannel = false ∧
      (disable st r).connection = false ∧
      (disable st r).callbackQueue = false := by
  intro st r
  simp [disable, close, is_available]

/-! ## Claim C3 -/

/-- C3, counterexample: in the `Uninitialized` state (no disabled
reason, `_ready` clear) `is_available` is false, yet `rpc_call` does
not fail fast — `ensure_ready` suspends on `await self._ready.wait()`,
so the call blocks until the manager becomes ready instead of raising
a connectivity error. -/
theorem rpc_call_blocks_when_uninitialized :
    is_available ⟨none, false, false, false, false, false, []⟩ = false ∧
    ensure_ready ⟨none, false, false, false, false, false, []⟩ = .blocks ∧
    rpc_call_start ⟨none, false, false, false, false, false, []⟩ "cid-1" Val.vnull
      = .blocked := by
  exact ⟨rfl, rfl, rfl⟩

/-- C3, amended: `rpc_call` fails fast with the connectivity
`RuntimeError` before publishing when a disabled reason is set; when
the manager is merely uninitialized or connecting (no reason, not
ready) it blocks awaiting readiness instead of failing; in every state
where `is_available` is false nothing is ever published. -/
theorem rpc_unavailable_raises_or_blocks_never_publishes :
    ∀ (st : MgrState) (cid : String) (payload : Val),
      (∀ r, st.disabledReason = some r →
          rpc_call_start st cid payload = .failed ("RabbitMQ is disabled: " ++ r)) ∧
      (st.disabledReason = none → st.ready = false →
          rpc_call_start st cid payload = .blocked) ∧
      (is_available st = false →
          ∀ st' msg, rpc_call_start st cid payload ≠ .published st' msg) := by
  intro st cid payload
  refine ⟨?_, ?_, ?_⟩
  · intro r hr
    simp [rpc_call_start, ensure_ready, hr]
  · intro hd hready
    simp [rpc_call_start, ensure_ready, hd, hready]
  · intro hav st' msg hpub
    rcases hd : st.disabledReason with _ | r
    · rcases hready : st.ready with _ | _
      · simp [rpc_call_start, ensure_ready, hd, hready] at hpub
      · simp [is_available, hd, hready] at hav
    · simp [rpc_call_start, ensure_ready, hd] at hpub

/-- C3 witness: the amended theorem applied to a disabled manager. -/
theorem rpc_unavailable_raises_or_blocks_never_publishes_witness :
    rpc_call_start ⟨some "down", false, false, false, false, false, []⟩ "c" Val.vnull
      = .failed ("RabbitMQ is disabled: " ++ "down") :=
  (rpc_unavailable_raises_or_blocks_never_publishes
    ⟨some "down", false, false, false, false, false, []⟩ "c" Val.vnull).1 "down" rfl

/-! ## Claim C2 -/

/-- A Whisper service fixture used to evaluate the façades. -/
def wSample : WhisperService :=
  ⟨fun _ _ => .ok ⟨"hello", "en", 3, none, none⟩,
   fun _ _ => .ok ⟨[], 0, 0, 0, .nil⟩⟩

/-- C2, counterexample: with the manager disabled, the LLM façade
(`SummarizationRpcGateway._call`) does not invoke the bound handler
in-process — it has no availability check and no `except RuntimeError`
fallback, so the connectivity `RuntimeError` from `rpc_call` propagates
to the caller (for any operation and any validator), contradicting the
claim that both façades fall back to direct execution. -/
theorem llm_facade_no_fallback_when_disabled :
    rpc_call_start ⟨some "broker unreachable", false, false, false, false, false, []⟩
        "cid-1" (Val.obj [("action", .vstr "summarize")])
      = .failed "RabbitMQ is disabled: broker unreachable" ∧
    llm_gateway_call (.runtimeErr "RabbitMQ is disabled: broker unreachable")
      = .runtimeExc "RabbitMQ is disabled: broker unreachable" ∧
    llm_op_result (.runtimeErr "RabbitMQ is disabled: broker unreachable")
        (fun v => Except.ok v)
      = .runtimeExc "RabbitMQ is disabled: broker unreachable" := by
  exact ⟨rfl, rfl, rfl⟩

/-- C2, amended: only the ASR façade falls back to direct in-process
execution when the manager is unavailable (up front on
`is_available = false`, and on a connectivity `RuntimeError` from
`rpc_call`); for both ASR operations the broker path — the bound
handler's ok envelope decoded by the façade — and the direct path
return the same result whenever the underlying handler succeeds.  The
LLM façade has no fallback: the connectivity error propagates. -/
theorem asr_fallback_equivalence_llm_propagates :
    ∀ (w : WhisperService) (path : String) (paths : List String)
      (req : TranscriptionRequest) (resp : TranscriptionResponse)
      (bresp : BatchTranscriptionResponse) (rpc : RpcOutcome) (msg : String),
      asr_transcribe_file false rpc w path req = asr_direct_transcribe_file w path req ∧
      asr_transcribe_batch false rpc w paths req = asr_direct_transcribe_batch w paths req ∧
      (w.transcribe_file (.vstr path) req = .ok resp →
        create_asr_handler w (asr_file_payload path req) = .success (okEnvelope resp.model_dump) ∧
        asr_transcribe_file true (.envelope (okEnvelope resp.model_dump)) w path req = .ret resp ∧
        asr_transcribe_file false rpc w path req = .ret resp) ∧
      (w.transcribe_batch (.arr (paths.map Val.vstr)) req = .ok bresp →
        create_asr_handler w (asr_batch_payload paths req) = .success (okEnvelope bresp.model_dump) ∧
        asr_transcribe_batch true (.envelope (okEnvelope bresp.model_dump)) w paths req = .ret bresp ∧
        asr_transcribe_batch false rpc w paths req = .ret bresp) ∧
      llm_gateway_call (.runtimeErr msg) = .runtimeExc msg := by
  intro w path paths req resp bresp rpc msg
  refine ⟨rfl, rfl, ?_, ?_, rfl⟩
  · intro hfile
    refine ⟨create_asr_handler_file_ok w path req resp hfile,
            asr_file_broker_ok w path req resp, ?_⟩
    simp [asr_transcribe_file, asr_direct_transcribe_file, hfile]
  · intro hbatch
    refine ⟨create_asr_handler_batch_ok w paths req bresp hbatch,
            asr_batch_broker_ok w paths req bresp, ?_⟩
    simp [asr_transcribe_batch, asr_direct_transcribe_batch, hbatch]

/-- C2 witness: broker path and fallback path of `transcribe_file`
agree on the fixture service. -/
theorem asr_fallback_equivalence_llm_propagates_witness :
    asr_transcribe_file true
        (.envelope (okEnvelope (TranscriptionResponse.model_dump ⟨"hello", "en", 3, none, none⟩)))
        wSample "/tmp/a.wav" ⟨none, "transcribe", false, none⟩
      = .ret ⟨"hello", "en", 3, none, none⟩ ∧
    asr_transcribe_file false .timeout wSample "/tmp/a.wav" ⟨none, "transcribe", false, none⟩
      = .ret ⟨"hello", "en", 3, none, none⟩ := by
  have h := asr_fallback_equivalence_llm_propagates wSample "/tmp/a.wav" []
    ⟨none, "transcribe", false, none⟩ ⟨"hello", "en", 3, none, none⟩
    ⟨[], 0, 0, 0, .nil⟩ .timeout "m"
  exact ⟨(h.2.2.1 rfl).2.1, (h.2.2.1 rfl).2.2⟩

/-! ## Claim C4 -/

/-- C4, confirmed: whenever `rpc_call` reaches its publish, the freshly
generated correlation id is already registered as a pending slot in
`_futures` (the insert textually precedes the publish and no suspension
point separates them), and the published message carries that id; hence
as long as no removal for that id has happened (no timeout pop, no
earlier reply), the reply-consuming callback finds the slot — it can
never observe the id slotless. -/
theorem correlation_registered_before_publish :
    ∀ (st : MgrState) (cid : String) (payload : Val) (st' : MgrState)
      (msg : PublishedMessage),
      rpc_call_start st cid payload = .published st' msg →
      msg.correlation_id = cid ∧
      lookupSlot st'.futures cid = some .pending ∧
      ∀ es, (∀ e ∈ es, removesCid e cid = false) →
        ∀ d, (step (run st'.futures es).1 (.reply cid d)).2 ≠ .droppedNoSlot cid := by
  intro st cid payload st' msg h
  rcases he : ensure_ready st with r | _ | _ <;> rw [rpc_call_start, he] at h
  · cases h
  · by_cases hch : st.producerChannel = false ∨ st.callbackQueue = false
    · rw [if_pos hch] at h; cases h
    · rw [if_neg hch] at h
      have hst' : st' = { st with futures := insertSlot st.futures cid .pending } := by
        cases h; rfl
      have hmsg : msg = ⟨payload, cid, callbackQueueName⟩ := by
        cases h; rfl
      subst hst'; subst hmsg
      refine ⟨rfl, by simp [lookupSlot_insertSlot_self], ?_⟩
      intro es hes d
      have hpres : lookupSlot (run (insertSlot st.futures cid .pending) es).1 cid ≠ none := by
        refine run_preserves_present _ es cid hes ?_
        simp [lookupSlot_insertSlot_self]
      rcases hs : lookupSlot (run (insertSlot st.futures cid .pending) es).1 cid with _ | s
      · exact absurd hs hpres
      · cases s with
        | pending => cases d <;> simp [step, hs]
        | cancelled => cases d <;> simp [step, hs]
  · cases h

/-- C4 witness: a publish from a ready manager, with an immediate reply
finding the registered slot. -/
theorem correlation_registered_before_publish_witness :
    lookupSlot [("c", Slot.pending)] "c" = some Slot.pending ∧
    (step (run [("c", Slot.pending)] []).1 (.reply "c" true)).2 ≠ .droppedNoSlot "c" := by
  have h := correlation_registered_before_publish
    ⟨none, true, true, true, true, true, []⟩ "c" Val.vnull
    ⟨none, true, true, true, true, true, [("c", Slot.pending)]⟩
    ⟨Val.vnull, "c", callbackQueueName⟩ rfl
  exact ⟨h.2.1, h.2.2 [] (by simp) true⟩

/-! ## Claim C5 -/

/-- C5, confirmed: (i) the pending map never holds two slots for one
correlation id (key distinctness is preserved by every event);
(ii) along any trace, the number of resolutions of a call `cid`
(set_result, set_exception, or cancellation by timeout) is bounded by
one per registration plus one for an initially pending slot — so a call
registered once is resolved at most once; (iii) once `cid` has no slot
(it was consumed by a reply, a timeout pop, or never existed), any
further reply for it is dropped (`log and drop`) leaving the map
unchanged — a duplicate reply finds no slot. -/
theorem pending_slot_unique_never_resolved_twice :
    ∀ (m : SlotMap) (cid : String) (es : List Event),
      ((slotKeys m).Nodup → (slotKeys (run m es).1).Nodup) ∧
      countRes cid (run m es).2 ≤ budget m cid + countReg cid es ∧
      (lookupSlot m cid = none → (∀ e ∈ es, e ≠ .register cid) →
        ∀ d, step (run m es).1 (.reply cid d) = ((run m es).1, .droppedNoSlot cid)) := by
  intro m cid es
  refine ⟨fun h => run_preserves_nodup m es h,
          countRes_le_budget_add_countReg m es cid, ?_⟩
  intro habs hreg d
  have h := run_preserves_absent m es cid hreg habs
  simp [step, h]

/-- C5 witness: starting from a map holding only `"a"`, a trace that
registers `"c"`, resolves it once, then sees a duplicate reply: the
duplicate is dropped and `"c"` was resolved exactly once. -/
theorem pending_slot_unique_never_resolved_twice_witness :
    (slotKeys (run [("a", Slot.pending)]
        [Event.register "c", Event.reply "c" true, Event.reply "c" true]).1).Nodup ∧
    countRes "c" (run [("a", Slot.pending)]
        [Event.register "c", Event.reply "c" true, Event.reply "c" true]).2
      ≤ budget [("a", Slot.pending)] "c" + countReg "c"
          [Event.register "c", Event.reply "c" true, Event.reply "c" true] ∧
    step (run [("a", Slot.pending)] [Event.reply "c" true]).1 (.reply "c" true)
      = ((run [("a", Slot.pending)] [Event.reply "c" true]).1, .droppedNoSlot "c") := by
  refine ⟨(pending_slot_unique_never_resolved_twice [("a", Slot.pending)] "c"
      [Event.register "c", Event.reply "c" true, Event.reply "c" true]).1 (by decide),
    (pending_slot_unique_never_resolved_twice [("a", Slot.pending)] "c"
      [Event.register "c", Event.reply "c" true, Event.reply "c" true]).2.1,
    (pending_slot_unique_never_resolved_twice [("a", Slot.pending)] "c"
      [Event.reply "c" true]).2.2 (by decide) (by decide) true⟩

/-! ## Claim C6 -/

/-- C6, confirmed: for a delivery whose body decodes and a live
producer channel, `_consume` always publishes a reply to the reply
address with the original correlation id and acknowledges the delivery
strictly after that publish; when the handler raises, the published
body is the `{status:"error", error:<message>}` envelope, and no
exception ever escapes the `message.process()` block (no `raised`
operation occurs). -/
theorem handler_failure_still_replied_and_acked :
    ∀ (payload : Val) (cid? : Option String) (rt : String)
      (handler : Val → HandlerResult),
      consume true ⟨some payload, cid?, some rt⟩ handler =
        [ConsumeOp.publishReply
            ⟨(match handler payload with
              | .success v => v
              | .exception m => errEnvelope m), cid?, rt⟩,
         ConsumeOp.ack] ∧
      (∀ m, handler payload = .exception m →
        consume true ⟨some payload, cid?, some rt⟩ handler =
          [ConsumeOp.publishReply ⟨errEnvelope m, cid?, rt⟩, ConsumeOp.ack]) ∧
      (∀ s, ConsumeOp.raised s ∉ consume true ⟨some payload, cid?, some rt⟩ handler) := by
  intro payload cid? rt handler
  refine ⟨by simp [consume], ?_, ?_⟩
  · intro m hm
    simp [consume, hm]
  · intro s
    rcases hh : handler payload with v | m <;> simp [consume, hh]

/-- C6 witness: a handler raising `ValueError("bad audio")` still gets
its error envelope published and the delivery acknowledged. -/
theorem handler_failure_still_replied_and_acked_witness :
    consume true ⟨some (Val.obj [("action", .vstr "transcribe_file")]), some "c", some "rq"⟩
        (fun _ => .exception "bad audio")
      = [ConsumeOp.publishReply ⟨errEnvelope "bad audio", some "c", "rq"⟩, ConsumeOp.ack] :=
  (handler_failure_still_replied_and_acked (Val.obj [("action", .vstr "transcribe_file")])
    (some "c") "rq" (fun _ => .exception "bad audio")).2.1 "bad audio" rfl

/-! ## Claim C7 -/

/-- C7, confirmed: when the `wait_for` timeout fires on a pending call,
the future is cancelled (the call resolves by timeout), the timeout
branch of `rpc_call` pops the `PendingCall` from `_futures` and then
re-raises the timeout — so the slot is gone before the failure
propagates — and any later reply for that correlation id (no matter how
the map evolves without re-registering it) is logged and dropped,
leaving the map unchanged and raising nothing to any caller. -/
theorem timeout_removes_pending_and_drops_late_reply :
    ∀ (m : SlotMap) (cid : String), lookupSlot m cid = some .pending →
      (step m (.timeoutCancel cid)).2 = .timeoutCancelled cid ∧
      (step (step m (.timeoutCancel cid)).1 (.timeoutPop cid)).2 = .timeoutRaised cid ∧
      (step (step m (.timeoutCancel cid)).1 (.timeoutPop cid)).1
        = rpc_call_on_timeout (step m (.timeoutCancel cid)).1 cid ∧
      lookupSlot (step (step m (.timeoutCancel cid)).1 (.timeoutPop cid)).1 cid = none ∧
      ∀ es, (∀ e ∈ es, e ≠ .register cid) → ∀ d,
        step (run (step (step m (.timeoutCancel cid)).1 (.timeoutPop cid)).1 es).1 (.reply cid d)
          = ((run (step (step m (.timeoutCancel cid)).1 (.timeoutPop cid)).1 es).1,
             .droppedNoSlot cid) := by
  intro m cid h
  refine ⟨by simp [step, h], by simp [step, h], by simp [step, h, rpc_call_on_timeout], ?_, ?_⟩
  · simp [step, h, lookupSlot_eraseSlot_self]
  · intro es hreg d
    have habs : lookupSlot (step (step m (.timeoutCancel cid)).1 (.timeoutPop cid)).1 cid = none := by
      simp [step, h, lookupSlot_eraseSlot_self]
    have h2 := run_preserves_absent _ es cid hreg habs
    simp only [step, h] at h2 ⊢
    simp [h2]

/-- C7 witness: timeout of the only pending call, then a late reply. -/
theorem timeout_removes_pending_and_drops_late_reply_witness :
    lookupSlot (step (step [("c", Slot.pending)] (.timeoutCancel "c")).1 (.timeoutPop "c")).1 "c"
      = none ∧
    step (run (step (step [("c", Slot.pending)] (.timeoutCancel "c")).1 (.timeoutPop "c")).1 []).1
        (.reply "c" true)
      = ((run (step (step [("c", Slot.pending)] (.timeoutCancel "c")).1 (.timeoutPop "c")).1 []).1,
         .droppedNoSlot "c") := by
  have h := timeout_removes_pending_and_drops_late_reply [("c", Slot.pending)] "c" rfl
  exact ⟨h.2.2.2.1, h.2.2.2.2 [] (by simp) true⟩

/-! ## Claim C8 -/

/-- C8, confirmed: a reply whose correlation id matches a pending slot
but whose body fails JSON decoding makes `_on_response` pop the slot
and resolve the future with the decode error (`set_exception`), which
the awaiting `rpc_call` then raises; the slot is gone from the map and
the consumer loop itself does not crash (the callback returns after
`set_exception`). -/
theorem decode_failure_resolves_waiting_call :
    ∀ (m : SlotMap) (cid : String), lookupSlot m cid = some .pending →
      on_response m (some cid) none = (eraseSlot m cid, .setExc "JSONDecodeError") ∧
      lookupSlot (eraseSlot m cid) cid = none ∧
      rpc_await (.setExc "JSONDecodeError") = some (.decodeError "JSONDecodeError") := by
  intro m cid h
  exact ⟨by simp [on_response, h], lookupSlot_eraseSlot_self m cid, rfl⟩

/-- C8 witness: the undecodable reply for the single pending call. -/
theorem decode_failure_resolves_waiting_call_witness :
    on_response [("c", Slot.pending)] (some "c") none
      = (eraseSlot [("c", Slot.pending)] "c", .setExc "JSONDecodeError") :=
  (decode_failure_resolves_waiting_call [("c", Slot.pending)] "c" rfl).1

/-! ## Claim C9 -/

/-- C9, counterexample: an envelope with `status:"ok"` and a present
but `null` result.  The LLM façade's check is `"result" not in
envelope`, which this envelope passes, so `_call` returns the `null`
value instead of raising the protocol failure the claim requires. -/
theorem llm_null_result_returned_not_raised :
    llm_gateway_call (.envelope (Val.obj [("status", .vstr "ok"), ("result", .vnull)]))
      = .ret .vnull ∧
    llm_gateway_call (.envelope (Val.obj [("status", .vstr "ok"), ("result", .vnull)]))
      ≠ .httpExc 502 (.vstr "LLM task returned empty result") := by
  exact ⟨rfl, by decide⟩

/-- C9, amended: on a `status:"ok"` envelope with an absent `result`
both façades raise the empty-result HTTP 502 (whose detail differs from
the remote-execution 502, and whose status differs from the 504
timeout); the ASR façade also raises it when `result` is present but
`null` (`envelope.get("result") is None`), while the LLM façade returns
a present-but-`null` result as-is; both façades raise the 504 timeout
failure on `asyncio.TimeoutError`. -/
theorem empty_result_protocol_failure :
    ∀ (env : Val),
      (vget env "status" = some (.vstr "ok") →
        ((vget env "result" = none ∨ vget env "result" = some .vnull) →
          asr_gateway_call (.envelope env)
            = .httpExc 502 (.vstr "ASR task returned empty result")) ∧
        (vget env "result" = none →
          llm_gateway_call (.envelope env)
            = .httpExc 502 (.vstr "LLM task returned empty result")) ∧
        (∀ v, vget env "result" = some v →
          llm_gateway_call (.envelope env) = .ret v)) ∧
      asr_gateway_call .timeout = .httpExc 504 (.vstr "ASR request timed out") ∧
      llm_gateway_call .timeout = .httpExc 504 (.vstr "LLM request timed out") := by
  intro env
  refine ⟨?_, rfl, rfl⟩
  intro hst
  refine ⟨?_, ?_, ?_⟩
  · rintro (hr | hr) <;> simp [asr_gateway_call, hst, hr]
  · intro hr
    simp [llm_gateway_call, hst, hr]
  · intro v hr
    simp [llm_gateway_call, hst, hr]

/-- C9 witness: the amended theorem applied to a status-ok envelope
without a result key. -/
theorem empty_result_protocol_failure_witness :
    asr_gateway_call (.envelope (Val.obj [("status", .vstr "ok")]))
      = .httpExc 502 (.vstr "ASR task returned empty result") ∧
    llm_gateway_call (.envelope (Val.obj [("status", .vstr "ok")]))
      = .httpExc 502 (.vstr "LLM task returned empty result") := by
  have h := (empty_result_protocol_failure (Val.obj [("status", .vstr "ok")])).1 rfl
  exact ⟨h.1 (Or.inl rfl), h.2.1 rfl⟩

/-! ## Claim C10 -/

/-- A summarization service fixture used to evaluate the handlers. -/
def svcSample : SummarizationService :=
  ⟨fun _ => .ok .vnull, fun _ => .ok .vnull, fun _ => .ok (.arr []), .ok (.obj [])⟩

/-- C10, confirmed: a decoded payload whose `action` is a string
outside the recognized set makes the bound handler return a
`{status:"error"}` envelope whose message names the unknown action —
the handlers return this dict normally (`HandlerResult.success`), so
nothing is raised to the dispatch loop.  Recognized sets:
`transcribe_file`/`transcribe_batch` for ASR and
`summarize`/`summarize_call`/`score_checklist`/`health` for LLM. -/
theorem unknown_action_yields_error_envelope :
    ∀ (w : WhisperService) (svc : SummarizationService) (payload : Val) (a : String),
      vget payload "action" = some (.vstr a) →
      (a ≠ "transcribe_file" → a ≠ "transcribe_batch" →
        create_asr_handler w payload =
          .success (Val.obj [("status", .vstr "error"),
            ("error", .vstr ("Unknown ASR action '" ++ a ++ "'"))])) ∧
      (a ≠ "summarize" → a ≠ "summarize_call" → a ≠ "score_checklist" → a ≠ "health" →
        create_llm_handler svc payload =
          .success (Val.obj [("status", .vstr "error"),
            ("error", .vstr ("Unknown LLM action '" ++ a ++ "'"))])) := by
  intro w svc payload a ha
  constructor
  · intro h1 h2
    simp [create_asr_handler, ha, h1, h2, pyFStr]
  · intro h1 h2 h3 h4
    simp [create_llm_handler, ha, h1, h2, h3, h4, pyFStr]

/-- C10 witness: the unrecognized action `"frobnicate"` on both
handlers. -/
theorem unknown_action_yields_error_envelope_witness :
    create_asr_handler wSample (Val.obj [("action", .vstr "frobnicate")]) =
      .success (Val.obj [("status", .vstr "error"),
        ("error", .vstr ("Unknown ASR action '" ++ "frobnicate" ++ "'"))]) ∧
    create_llm_handler svcSample (Val.obj [("action", .vstr "frobnicate")]) =
      .success (Val.obj [("status", .vstr "error"),
        ("error", .vstr ("Unknown LLM action '" ++ "frobnicate" ++ "'"))]) := by
  have h := unknown_action_yields_error_envelope wSample svcSample
    (Val.obj [("action", .vstr "frobnicate")]) "frobnicate" rfl
  exact ⟨h.1 (by decide) (by decide), h.2 (by decide) (by decide) (by decide) (by decide)⟩

end Scoring
